import Mathlib

/-!
Verification development for the WaterTAP anaerobic digestor unit model
(src/watertap/unit_models/anaerobic_digestor.py) and the costing utilities
(src/watertap/costing/util.py).

The Python code is shallowly embedded: machine state (the costing package
component map, the event sequence of an initialization run, the suffix of
scaling transforms) is passed explicitly, exceptions are modelled as error
values, and numeric quantities are rationals.  Each definition mirrors one
function of the source; names follow the source where Lean allows it.
-/

/-! Section: string utilities.

Python uses substring tests (the pat in sv idiom) and f-strings.  We model
substring containment executably over character lists, and message
containment as an explicit decomposition of the string.
-/

/-- Boolean test that the first character list is an initial segment of the
second. -/
def leadsChars : List Char → List Char → Bool
  | [], _ => true
  | _ :: _, [] => false
  | a :: as, b :: bs => a = b && leadsChars as bs

/-- Boolean test that pat occurs contiguously somewhere inside the second
list. -/
def occursInChars (pat : List Char) : List Char → Bool
  | [] => leadsChars pat []
  | c :: cs => leadsChars pat (c :: cs) || occursInChars pat cs

/-- Python membership test (pat in s) for strings: pat occurs as a contiguous
substring of s. -/
def strContains (s pat : String) : Bool := occursInChars pat.toList s.toList

/-- The message msg mentions part: part occurs contiguously inside msg. -/
def mentions (msg part : String) : Prop := ∃ l r : String, msg = l ++ (part ++ r)

theorem mentions_intro (l part r : String) : mentions (l ++ (part ++ r)) part :=
  ⟨l, r, rfl⟩

/-! Section: costing parameter registry (src/watertap/costing/util.py).

register_costing_parameter_block(build_rule, parameter_block_name) wraps a
costing function func; the wrapper add_costing_parameter_block consults the
costing package for a component of that name, constructs it from build_rule
on first use (fixing all its variables), reuses it when the recorded rule
matches, and raises RuntimeError otherwise.  We model the rule identity of a
Python function object together with the dunder name and module attributes
that the error message prints.
-/

/-- Identity of a build-rule function object: an object id plus the
attributes used in the conflict message. -/
structure BuildRule where
  oid : Nat
  fname : String
  fmodule : String
deriving DecidableEq, Repr

/-- Registry-relevant state of a constructed parameter block: the rule
recorded in its underscore-rule slot (none when the block carries no usable
rule metadata, i.e. the rule is None or has no fcn attribute), and whether
all of its variables are fixed. -/
structure ParameterBlock where
  ruleFcn : Option BuildRule
  allVarsFixed : Bool
deriving DecidableEq, Repr

/-- A costing package: its printed name and its named components. -/
structure CostingPackage where
  pname : String
  components : List (String × ParameterBlock)
deriving DecidableEq, Repr

/-- The component bound to name in the package, if any
(blk.costing_package.component(name)). -/
def CostingPackage.component (pkg : CostingPackage) (nm : String) :
    Option ParameterBlock :=
  (pkg.components.find? (fun p => p.fst == nm)).map Prod.snd

/-- Observable actions of one call of the wrapped costing function. -/
inductive RegEvent
  | addComponent (nm : String)
  | fixAllVars (nm : String)
  | callWrapped
deriving DecidableEq, Repr

/-- Normal return versus a raised RuntimeError carrying its message. -/
inductive RegOutcome
  | ok
  | runtimeError (msg : String)
deriving DecidableEq, Repr

/-- The RuntimeError message for a block present without registry
metadata (note the missing space between the two adjacent string literals in
the source). -/
def misuseMsg : String :=
  "Use the register_costing_parameter_block decorator for specifying" ++
    "costing-package-level parameters"

/-- The RuntimeError message for a conflicting build rule, as an explicit
concatenation mirroring the f-string of the source. -/
def conflictMsg (pkg : CostingPackage) (parameter_block_name : String)
    (other_rule : BuildRule) : String :=
  "Attempting to add identically named costing parameter blocks with " ++
    "different build rules to the costing package " ++
    (pkg.pname ++
      (". Parameter block named " ++
        (parameter_block_name ++
          (" was previously built by function " ++
            (other_rule.fname ++
              (" from module " ++ other_rule.fmodule))))))

/-- One call of the function produced by register_costing_parameter_block:
given the recorded build rule, the parameter block name and the current
costing package, it returns the updated package, the events performed in
order, and the outcome. -/
def add_costing_parameter_block (build_rule : BuildRule)
    (parameter_block_name : String) (pkg : CostingPackage) :
    CostingPackage × List RegEvent × RegOutcome :=
  match pkg.component parameter_block_name with
  | none =>
      let pb : ParameterBlock := { ruleFcn := some build_rule, allVarsFixed := true }
      ({ pkg with components := (parameter_block_name, pb) :: pkg.components },
        [RegEvent.addComponent parameter_block_name,
          RegEvent.fixAllVars parameter_block_name,
          RegEvent.callWrapped],
        RegOutcome.ok)
  | some pb =>
      match pb.ruleFcn with
      | none => (pkg, [], RegOutcome.runtimeError misuseMsg)
      | some other_rule =>
          if other_rule = build_rule then
            (pkg, [RegEvent.callWrapped], RegOutcome.ok)
          else
            (pkg, [],
              RegOutcome.runtimeError
                (conflictMsg pkg parameter_block_name other_rule))

/-- N successive calls of the wrapped costing function with the same build
rule and block name, returning the final package and the per-call events and
outcomes in order. -/
def iterate_add (build_rule : BuildRule) (nm : String) :
    Nat → CostingPackage → CostingPackage × List (List RegEvent × RegOutcome)
  | 0, pkg => (pkg, [])
  | Nat.succ n, pkg =>
      let r := add_costing_parameter_block build_rule nm pkg
      let rest := iterate_add build_rule nm n r.fst
      (rest.fst, r.snd :: rest.snd)

/-! Section: cost templates (src/watertap/costing/util.py).

cost_rectifier(blk, power, ac_dc_conversion_efficiency) declares the
capital-cost variable, an ac-power variable on NonNegativeReals in kW, fixes
the two rectifier cost coefficients, posts the power-conversion and
capital-cost-rectifier constraints, and registers the ac-power draw with the
electricity flow costing of the package.  Unit conversion factors appear as
explicit rational parameters: power is taken already converted to kW, and
usd2021ToBase is the conversion factor from USD-2021 into the base currency
of the costing package.
-/

/-- A valuation of the variables that cost_rectifier declares on the cost
block. -/
structure RectifierVals where
  capital_cost : ℚ
  ac_power : ℚ
  capital_cost_rectifier : ℚ
  rectifier_cost_coeff0 : ℚ
  rectifier_cost_coeff1 : ℚ
deriving Repr

/-- The conjunction of the variable domains, the fixed coefficient values
and the two constraints that cost_rectifier installs, in source order:
capital_cost on NonNegativeReals, ac_power on NonNegativeReals, the two
rectifier_cost_coeff entries fixed to 508.6 and 2810, the power_conversion
constraint and the capital_cost_rectifier_constraint. -/
def cost_rectifier_feasible (powerKW eff usd2021ToBase : ℚ)
    (v : RectifierVals) : Prop :=
  0 ≤ v.capital_cost ∧
  0 ≤ v.ac_power ∧
  v.rectifier_cost_coeff0 = 508.6 ∧
  v.rectifier_cost_coeff1 = 2810 ∧
  v.ac_power * eff = powerKW ∧
  v.capital_cost_rectifier =
    usd2021ToBase * (v.rectifier_cost_coeff1 + v.rectifier_cost_coeff0 * v.ac_power)

/-- The flow registrations performed by cost_rectifier: the single call
blk.costing_package.cost_flow(blk.ac_power, electricity). -/
def cost_rectifier_flows : List (String × String) := [("ac_power", "electricity")]

/-! Section: anaerobic digestor model assembly
(src/watertap/unit_models/anaerobic_digestor.py, ADData.build)

The build method validates the phase lists, the existence of a common
component and the flow-basis compatibility of the two property packages,
then constructs the liquid control volume, the vapor state block and the
unit-level constraints.  We embed the configuration data the checks consult,
the sequence of construction effects (to record that no solver call occurs),
and the unit-level material balance constraint family.
-/

/-- The MaterialFlowBasis values relevant to the unit: molar, mass, or any other
basis. -/
inductive MaterialFlowBasis
  | molar
  | mass
  | other
deriving DecidableEq, Repr

/-- The configuration data consulted by ADData.build: the phase and
component lists of the two property packages, their material flow bases, and
the momentum options governing the optional pressure constraint. -/
structure ADConfig where
  vapor_phase_list : List String
  liquid_phase_list : List String
  vapor_component_list : List String
  liquid_component_list : List String
  vapor_flow_basis : MaterialFlowBasis
  liquid_flow_basis : MaterialFlowBasis
  has_pressure_change : Bool
  momentum_balance_is_none : Bool
deriving DecidableEq, Repr

/-- Intersection of the vapor and liquid component lists, as in
vapor_phase.component_list intersected with properties_out.component_list. -/
def common_comps (vap liq : List String) : List String :=
  vap.filter (fun j => j ∈ liq)

/-- Sides of a unit-level material balance equation: the liquid mass
transfer term at (t, phase, component), the negated vapor material flow term
of (phase, component) at t, or the small constant 1e-8 in the given flow
basis units. -/
inductive ADExpr
  | massTransferTerm (t : ℚ) (phase comp : String)
  | negVaporFlowTerm (t : ℚ) (phase comp : String)
  | smallConst (q : ℚ) (flowBasisUnits : String)
deriving DecidableEq, Repr

/-- The body of rule_material_balance(self, t, j): the unit-level material balance
equation for time t and liquid component j, as a pair (left side, right
side).  The source closure captures common_comps, the liquid component list
and the flow-basis unit string fb. -/
def rule_material_balance (common liq : List String) (fb : String)
    (t : ℚ) (j : String) : Option (ADExpr × ADExpr) :=
  if j ∈ common then
    some (ADExpr.massTransferTerm t "Liq" j, ADExpr.negVaporFlowTerm t "Vap" j)
  else if j = "S_IC" then
    some (ADExpr.massTransferTerm t "Liq" j, ADExpr.negVaporFlowTerm t "Vap" "S_co2")
  else if j ∈ liq then
    some (ADExpr.massTransferTerm t "Liq" j, ADExpr.smallConst (1e-8) fb)
  else
    none

/-- The body of rule_energy_balance(self, t): the unit-level enthalpy balance
constraint body, as a relation over the values of the enthalpy transfer
term, the liquid inlet enthalpy flow, the liquid outlet enthalpy flow and
the vapor enthalpy flow at time t. -/
def rule_energy_balance (enthalpy_transfer hInLiq hOutLiq hVap : ℚ) : Prop :=
  enthalpy_transfer + hInLiq = hOutLiq + hVap

/-- Modelled from the spec sentence for the enthalpy balance, for
comparison with rule_energy_balance: enthalpy leaving via vapor equals inlet
enthalpy plus internal enthalpy transfer. -/
def spec_enthalpy_balance (enthalpy_transfer hInLiq hOutLiq hVap : ℚ) : Prop :=
  hVap = hInLiq + enthalpy_transfer

instance (et hin hout hvap : ℚ) : Decidable (rule_energy_balance et hin hout hvap) := by
  unfold rule_energy_balance; infer_instance

instance (et hin hout hvap : ℚ) : Decidable (spec_enthalpy_balance et hin hout hvap) := by
  unfold spec_enthalpy_balance; infer_instance

/-- Construction effects performed by ADData.build, in source order; a
solver invocation constructor is included so that its absence from the build
trace is expressible. -/
inductive ADEffect
  | add_state_blocks
  | add_reaction_blocks
  | add_material_balances
  | add_energy_balances
  | add_momentum_balances
  | build_vapor_state_block
  | add_geometry
  | add_port (nm : String)
  | add_constraint (nm : String)
  | solver_solve
deriving DecidableEq, Repr

/-- The flow-basis unit string chosen by build: flow_mole for a molar basis,
flow_mass for a mass basis, none otherwise. -/
def fb_name : MaterialFlowBasis → Option String
  | MaterialFlowBasis.molar => some "flow_mole"
  | MaterialFlowBasis.mass => some "flow_mass"
  | MaterialFlowBasis.other => none

/-- The parts of the assembled unit model that the claims consult: the
ordered construction effects, the chosen flow-basis unit string, and the
unit-level material balance family indexed by time and liquid component. -/
structure ADModel where
  effects : List ADEffect
  fb : String
  unit_material_balance : List ((ℚ × String) × (ADExpr × ADExpr))
deriving DecidableEq, Repr

/-- The build method of ADData: the validation checks in source order, then the model
construction.  Raised ConfigurationErrors are modelled as error values
carrying the message; times is the flowsheet time set. -/
def ADData.build (name : String) (cfg : ADConfig) (times : List ℚ) :
    Except String ADModel :=
  if cfg.vapor_phase_list ≠ ["Vap"] then
    Except.error (name ++ " Anaerobic digestor model requires that the vapor phase property package have a single phase named \x27Vap\x27")
  else if cfg.liquid_phase_list ≠ ["Liq"] then
    Except.error (name ++ " Anaerobic digestor model requires that the liquid phase property package have a single phase named \x27Liq\x27")
  else if ¬ ∃ j ∈ cfg.liquid_component_list, j ∈ cfg.vapor_component_list then
    Except.error (name ++ " Anaerobic digestor model requires that the liquid and vapor phase property packages have at least one common component.")
  else if cfg.vapor_flow_basis ≠ cfg.liquid_flow_basis then
    Except.error (name ++ " vapor and liquid property packages must use the same material flow basis.")
  else
    match fb_name cfg.vapor_flow_basis with
    | none =>
        Except.error (name ++ " AnaerobicDigestor only supports mass or molar basis for MaterialFlowBasis.")
    | some fb =>
        let common := common_comps cfg.vapor_component_list cfg.liquid_component_list
        Except.ok
          { effects :=
              [ADEffect.add_state_blocks, ADEffect.add_reaction_blocks,
                ADEffect.add_material_balances, ADEffect.add_energy_balances,
                ADEffect.add_momentum_balances, ADEffect.build_vapor_state_block,
                ADEffect.add_geometry, ADEffect.add_port "inlet",
                ADEffect.add_port "liquid_outlet", ADEffect.add_port "vapor_outlet",
                ADEffect.add_constraint "CO2_Henrys_law",
                ADEffect.add_constraint "Ch4_Henrys_law",
                ADEffect.add_constraint "H2_Henrys_law",
                ADEffect.add_constraint "outlet_P",
                ADEffect.add_constraint "unit_material_balance",
                ADEffect.add_constraint "Sh2_conc",
                ADEffect.add_constraint "Sch4_conc",
                ADEffect.add_constraint "Sco2_conc",
                ADEffect.add_constraint "flow_vol_vap",
                ADEffect.add_constraint "ad_total_volume",
                ADEffect.add_constraint "ad_performance_eqn",
                ADEffect.add_constraint "unit_temperature_equality"] ++
              (if cfg.has_pressure_change ∧ ¬ cfg.momentum_balance_is_none then
                  [ADEffect.add_constraint "unit_pressure_balance"]
                else []) ++
              [ADEffect.add_constraint "unit_enthalpy_balance",
                ADEffect.add_constraint "unit_electricity_consumption"],
            fb := fb,
            unit_material_balance :=
              times.flatMap (fun t =>
                cfg.liquid_component_list.filterMap (fun j =>
                  (rule_material_balance common cfg.liquid_component_list fb t j).map
                    (fun eq => ((t, j), eq)))) }

/-! Section: scaling coordinator (ADData.calculate_scaling_factors).

calculate_scaling_factors rescales each listed constraint by the scaling
factor of a reference variable, looked up with default 1 (and a warning when
unset).  We embed the list of (constraint, reference variable) pairs that
the method applies, in source order, and the factor lookup with its
default.
-/

/-- Reference variables used by the constraint scaling transforms, all on
the liquid outlet state unless noted. -/
inductive ScaleVarRef
  | flow_vol_out
  | mass_transfer_term (j : String)
  | temperature_out
  | enthalpy_transfer
  | pressure_out
  | conc_mass_comp_out (j : String)
deriving DecidableEq, Repr

/-- The scaling-factor lookup with default=1: the recorded factor when set,
else 1 (with a warning, which we do not track). -/
def get_scaling_factor (sf : ScaleVarRef → Option ℚ) (r : ScaleVarRef) : ℚ :=
  (sf r).getD 1

/-- The constraint scaling transforms applied by calculate_scaling_factors,
in source order, per time point: flow_vol_vap by the outlet volumetric flow
factor; each unit_material_balance row whose component is common to both
phases by its mass transfer term factor (others skipped); the temperature
equality by the outlet temperature factor; the enthalpy balance by the
enthalpy transfer factor; outlet_P by the outlet pressure factor; Sh2_conc
by the factor of conc_mass_comp at S_h2; Sch4_conc by the factor of
conc_mass_comp at S_ch4; and Sco2_conc also by the factor of conc_mass_comp
at S_ch4 (as in the source). -/
def calculate_scaling_transforms (vap liq : List String) :
    List (String × ScaleVarRef) :=
  [("flow_vol_vap", ScaleVarRef.flow_vol_out)] ++
    (liq.filterMap (fun j =>
      if j ∈ common_comps vap liq then
        some ("unit_material_balance[" ++ j ++ "]", ScaleVarRef.mass_transfer_term j)
      else none)) ++
    [("unit_temperature_equality", ScaleVarRef.temperature_out),
      ("unit_enthalpy_balance", ScaleVarRef.enthalpy_transfer),
      ("outlet_P", ScaleVarRef.pressure_out),
      ("Sh2_conc", ScaleVarRef.conc_mass_comp_out "S_h2"),
      ("Sch4_conc", ScaleVarRef.conc_mass_comp_out "S_ch4"),
      ("Sco2_conc", ScaleVarRef.conc_mass_comp_out "S_ch4")]

/-- The numeric factor by which each constraint is rescaled, given the
recorded scaling factor map. -/
def applied_scaling_factors (vap liq : List String)
    (sf : ScaleVarRef → Option ℚ) : List (String × ℚ) :=
  (calculate_scaling_transforms vap liq).map
    (fun p => (p.fst, get_scaling_factor sf p.snd))

/-! Section: initialization sequencer (ADData.initialize_build).

initialize_build checks the degrees of freedom, initializes the liquid
control volume holding the inlet state, derives a vapor state guess from the
liquid outlet when none is supplied, initializes the vapor state block,
solves the full model (retrying once on a non-optimal termination), releases
the held inlet state, and raises InitializationError if the last solve was
non-optimal.  The external collaborators are parameters: the
degrees-of-freedom value, the vapor state variable layout, the converged
liquid outlet values, and the termination status of each solver call.
-/

/-- A state-variable guess value: a scalar, or a per-component table for
concentration-like variables. -/
inductive GuessVal
  | scalar (q : ℚ)
  | indexed (vals : List (String × ℚ))
deriving DecidableEq, Repr

/-- The converged liquid outlet state at the first time point, as consulted
by the guess derivation: value(getattr(liq_state, sv)) for unindexed state
variables, getattr(liq_state, sv)[j] for component-indexed ones, and the
component list. -/
structure LiqOutState where
  scalarVal : String → ℚ
  indexedVal : String → String → ℚ
  component_list : List String

/-- The vapor state guess derived from the liquid outlet when no explicit
vapor guess is supplied: per state variable sv of the vapor state block
(paired with its component index set), 13 times the liquid value when flow
occurs in sv; per component, 1000 times the liquid value for components of
the liquid list and 0.5 otherwise, when conc occurs in sv; 1.05 times the
liquid value when pressure occurs in sv; otherwise the liquid value
verbatim. -/
def derive_vapor_state_args (vap_state_vars : List (String × List String))
    (liq_state : LiqOutState) : List (String × GuessVal) :=
  vap_state_vars.map (fun p =>
    let sv := p.fst
    if strContains sv "flow" then
      (sv, GuessVal.scalar (13 * liq_state.scalarVal sv))
    else if strContains sv "conc" then
      (sv, GuessVal.indexed (p.snd.map (fun j =>
        (j, if j ∈ liq_state.component_list then
              1000 * liq_state.indexedVal sv j
            else 0.5))))
    else if strContains sv "pressure" then
      (sv, GuessVal.scalar (1.05 * liq_state.scalarVal sv))
    else
      (sv, GuessVal.scalar (liq_state.scalarVal sv)))

/-- Observable actions of one initialization run, in order.  The liquid
initialization records its hold_state argument and returns the flags that
release_state later consumes; the vapor initialization records its
hold_state argument; vapor_guess_derived marks the execution of the guess
derivation loop. -/
inductive InitEvent
  | liquid_phase_init (hold_state : Bool)
  | vapor_guess_derived
  | vapor_phase_init (hold_state : Bool)
  | solver_solve
  | release_state
deriving DecidableEq, Repr

/-- The outcome of one initialize_build run: the events performed in order,
the vapor state arguments actually passed to the vapor initialization (none
when the run aborts before reaching it), and the raised InitializationError
message, if any. -/
structure InitResultTrace where
  events : List InitEvent
  vapor_args_used : Option (List (String × GuessVal))
  error : Option String
deriving Repr

/-- The initialize_build method of ADData.  dof is the degrees-of-freedom value of the
model, vapor_state_args the caller-supplied vapor guess, vap_state_vars the
define_state_vars layout of the vapor state block at the first time point,
liq_state the converged liquid outlet, and r1, r2 the optimality of the
first and (if performed) second solver call. -/
def initialize_build (name : String) (dof : Int)
    (vapor_state_args : Option (List (String × GuessVal)))
    (vap_state_vars : List (String × List String)) (liq_state : LiqOutState)
    (r1 r2 : Bool) : InitResultTrace :=
  if dof ≠ 0 then
    { events := [],
      vapor_args_used := none,
      error := some (name ++ " degrees of freedom were not 0 at the beginning of initialization. DoF = " ++ toString dof) }
  else
    let guessEvents :=
      match vapor_state_args with
      | some _ => []
      | none => [InitEvent.vapor_guess_derived]
    let args :=
      match vapor_state_args with
      | some a => a
      | none => derive_vapor_state_args vap_state_vars liq_state
    let solveEvents :=
      if r1 then [InitEvent.solver_solve]
      else [InitEvent.solver_solve, InitEvent.solver_solve]
    let finalOk := if r1 then r1 else r2
    { events :=
        [InitEvent.liquid_phase_init true] ++ guessEvents ++
          [InitEvent.vapor_phase_init false] ++ solveEvents ++
          [InitEvent.release_state],
      vapor_args_used := some args,
      error :=
        if finalOk then none
        else some (name ++ " failed to initialize successfully. Please check the output logs for more information.") }

/-! Section: theorems for the initialization sequencer. -/

/-- Claim C4: if the degrees of freedom are nonzero when initialize_build is
called, it raises an InitializationError whose message reports the numeric
degrees-of-freedom value, before any solver invocation and before the
liquid or vapor phase is initialized: the event trace is empty, so the
solver invocation count is zero on this path. -/
theorem claim_C4_dof_precheck (name : String) (dof : Int)
    (vapor_state_args : Option (List (String × GuessVal)))
    (vap_state_vars : List (String × List String)) (liq_state : LiqOutState)
    (r1 r2 : Bool) (h : dof ≠ 0) :
    initialize_build name dof vapor_state_args vap_state_vars liq_state r1 r2 =
      { events := [],
        vapor_args_used := none,
        error := some (name ++ " degrees of freedom were not 0 at the beginning of initialization. DoF = " ++ toString dof) } := by
  unfold initialize_build
  simp [h]

theorem claim_C4_dof_precheck_witness :
    (initialize_build "fs.AD" 3 none [] ⟨fun _ => 0, fun _ _ => 0, []⟩ true true).events = [] ∧
    (initialize_build "fs.AD" 3 none [] ⟨fun _ => 0, fun _ _ => 0, []⟩ true true).error =
      some "fs.AD degrees of freedom were not 0 at the beginning of initialization. DoF = 3" := by
  rw [claim_C4_dof_precheck "fs.AD" 3 none [] ⟨fun _ => 0, fun _ _ => 0, []⟩ true true (by decide)]
  exact ⟨rfl, by decide⟩

/-- Claim C3: with zero degrees of freedom, after the liquid and vapor
initialization steps the solver is invoked once, a second invocation occurs
exactly when the first terminates non-optimally (so at most two), the
release of the liquid-phase hold flags happens exactly once and as the last
event on both the optimal and the non-optimal outcome, and the
InitializationError naming the unit is reported exactly when the last solve
was non-optimal, after release_state has run. -/
theorem claim_C3_solve_retry_release (name : String)
    (vapor_state_args : Option (List (String × GuessVal)))
    (vap_state_vars : List (String × List String)) (liq_state : LiqOutState)
    (r1 r2 : Bool) :
    (initialize_build name 0 vapor_state_args vap_state_vars liq_state r1 r2).events.count
        InitEvent.solver_solve = (if r1 then 1 else 2) ∧
    (initialize_build name 0 vapor_state_args vap_state_vars liq_state r1 r2).events.count
        InitEvent.release_state = 1 ∧
    (initialize_build name 0 vapor_state_args vap_state_vars liq_state r1 r2).events.getLast? =
      some InitEvent.release_state ∧
    (initialize_build name 0 vapor_state_args vap_state_vars liq_state r1 r2).error =
      (if (if r1 then r1 else r2) then none
        else some (name ++ " failed to initialize successfully. Please check the output logs for more information.")) := by
  cases vapor_state_args <;> cases r1 <;> cases r2 <;>
    simp [initialize_build] <;> decide

/-- Claim C5: with no explicit vapor state guess, initialize_build passes the
guess derived from the converged liquid outlet to the vapor initialization;
the derivation maps each vapor state variable by the name-pattern dispatch of
the source (flow times 13; conc per component, 1000 times the liquid value
for liquid-list components and 0.5 otherwise; pressure times 1.05; anything
else verbatim); and with a supplied guess, the derivation is skipped
entirely and the supplied arguments are used. -/
theorem claim_C5_vapor_guess (name : String)
    (vap_state_vars : List (String × List String)) (liq_state : LiqOutState)
    (supplied : List (String × GuessVal)) (r1 r2 : Bool) :
    ((initialize_build name 0 none vap_state_vars liq_state r1 r2).vapor_args_used =
      some (derive_vapor_state_args vap_state_vars liq_state)) ∧
    ((initialize_build name 0 (some supplied) vap_state_vars liq_state r1 r2).vapor_args_used =
      some supplied) ∧
    (InitEvent.vapor_guess_derived ∉
      (initialize_build name 0 (some supplied) vap_state_vars liq_state r1 r2).events) ∧
    (∀ sv idx, (sv, idx) ∈ vap_state_vars →
      (strContains sv "flow" = true →
        (sv, GuessVal.scalar (13 * liq_state.scalarVal sv)) ∈
          derive_vapor_state_args vap_state_vars liq_state) ∧
      (strContains sv "flow" = false → strContains sv "conc" = true →
        (sv, GuessVal.indexed (idx.map (fun j =>
            (j, if j ∈ liq_state.component_list then
                  1000 * liq_state.indexedVal sv j
                else 0.5)))) ∈
          derive_vapor_state_args vap_state_vars liq_state) ∧
      (strContains sv "flow" = false → strContains sv "conc" = false →
          strContains sv "pressure" = true →
        (sv, GuessVal.scalar (1.05 * liq_state.scalarVal sv)) ∈
          derive_vapor_state_args vap_state_vars liq_state) ∧
      (strContains sv "flow" = false → strContains sv "conc" = false →
          strContains sv "pressure" = false →
        (sv, GuessVal.scalar (liq_state.scalarVal sv)) ∈
          derive_vapor_state_args vap_state_vars liq_state)) := by
  refine ⟨by simp [initialize_build], by simp [initialize_build], ?_, ?_⟩
  · cases r1 <;> cases r2 <;> simp [initialize_build]
  · intro sv idx hmem
    refine ⟨fun hf => ?_, fun hf hc => ?_, fun hf hc hp => ?_, fun hf hc hp => ?_⟩ <;>
      · simp only [derive_vapor_state_args, List.mem_map]
        exact ⟨(sv, idx), hmem, by simp [hf]; try simp [hc]; try simp [hp]⟩

theorem claim_C5_vapor_guess_witness :
    ("flow_vol", GuessVal.scalar (13 * 2)) ∈
      derive_vapor_state_args [("flow_vol", []), ("conc_mass_comp", ["S_ch4", "S_other"])]
        ⟨fun _ => 2, fun _ _ => 3, ["S_ch4"]⟩ ∧
    ("conc_mass_comp", GuessVal.indexed [("S_ch4", 1000 * 3), ("S_other", 0.5)]) ∈
      derive_vapor_state_args [("flow_vol", []), ("conc_mass_comp", ["S_ch4", "S_other"])]
        ⟨fun _ => 2, fun _ _ => 3, ["S_ch4"]⟩ := by
  have h := (claim_C5_vapor_guess "fs.AD"
    [("flow_vol", []), ("conc_mass_comp", ["S_ch4", "S_other"])]
    ⟨fun _ => 2, fun _ _ => 3, ["S_ch4"]⟩ [] true true).2.2.2
  refine ⟨(h "flow_vol" [] (by simp)).1 (by decide), ?_⟩
  have h2 := ((h "conc_mass_comp" ["S_ch4", "S_other"] (by simp)).2.1
    (by decide) (by decide))
  simpa using h2

/-! Section: theorems for the unit-level enthalpy balance. -/

/-- Claim C8 counterexample: the enthalpy balance constraint built by build
is not the equation (vapor enthalpy flow = liquid inlet enthalpy flow +
enthalpy transfer): with enthalpy transfer 0, inlet flow 0, liquid outlet
flow 5 and vapor flow -5, the built constraint is satisfied while the
claimed equation fails. -/
theorem claim_C8_counterexample :
    rule_energy_balance 0 0 5 (-5) ∧ ¬ spec_enthalpy_balance 0 0 5 (-5) := by
  constructor
  · show (0 : ℚ) + 0 = 5 + (-5)
    norm_num
  · show ¬ ((-5 : ℚ) = 0 + 0)
    norm_num

/-- Claim C8 amended: for every time point, the unit-level enthalpy balance
constraint built by build states that the enthalpy flow leaving via the
vapor phase plus the enthalpy flow leaving via the liquid outlet equals the
liquid inlet enthalpy flow plus the internal enthalpy transfer term. -/
theorem claim_C8_enthalpy_balance (et hin hout hvap : ℚ) :
    rule_energy_balance et hin hout hvap ↔ hvap + hout = hin + et := by
  unfold rule_energy_balance
  constructor <;> intro h <;> linarith

/-! Section: theorems for the rectifier cost template. -/

/-- Claim C9: cost_rectifier introduces a non-negative AC-power variable
constrained by ac_power times the conversion efficiency equalling the DC
power demand in kW, constrains the capital-cost-rectifier variable of the
block to the affine correlation USD-2021 times (2810 + 508.6 times the AC
power in kW) converted to the base currency, and registers ac_power with the
electricity flow costing of the package. -/
theorem claim_C9_cost_rectifier (powerKW eff usd2021ToBase : ℚ)
    (v : RectifierVals) (h : cost_rectifier_feasible powerKW eff usd2021ToBase v) :
    0 ≤ v.ac_power ∧
    v.ac_power * eff = powerKW ∧
    v.capital_cost_rectifier = usd2021ToBase * (2810 + 508.6 * v.ac_power) ∧
    ("ac_power", "electricity") ∈ cost_rectifier_flows := by
  obtain ⟨-, h2, h3, h4, h5, h6⟩ := h
  refine ⟨h2, h5, ?_, by simp [cost_rectifier_flows]⟩
  rw [h6, h3, h4]

theorem claim_C9_cost_rectifier_witness :
    0 ≤ (100 : ℚ) ∧ (100 : ℚ) * 0.9 = 90 ∧
    (53670 : ℚ) = 1 * (2810 + 508.6 * 100) ∧
    ("ac_power", "electricity") ∈ cost_rectifier_flows := by
  have h : cost_rectifier_feasible 90 0.9 1
      ⟨100000, 100, 53670, 508.6, 2810⟩ := by
    unfold cost_rectifier_feasible
    norm_num
  simpa using claim_C9_cost_rectifier 90 0.9 1 ⟨100000, 100, 53670, 508.6, 2810⟩ h

/-! Section: theorems for the unit-level material balance. -/

theorem mem_common_comps (vap liq : List String) (j : String) :
    j ∈ common_comps vap liq ↔ j ∈ vap ∧ j ∈ liq := by
  simp [common_comps]

/-- Claim C1: for every time point and every liquid component j, the unit
material balance takes exactly one of three forms, dispatched in source
order: j common to both phases gives liquid mass transfer equal to the
negated vapor flow term of j; otherwise j = S_IC gives the negated vapor
flow term of the renamed species S_co2; otherwise (j absent from the vapor
list) the liquid mass transfer equals the constant 1e-8 in the liquid flow
basis units. -/
theorem claim_C1_material_balance_forms (vap liq : List String) (fb : String)
    (t : ℚ) (j : String) (hj : j ∈ liq) :
    (j ∈ vap →
      rule_material_balance (common_comps vap liq) liq fb t j =
        some (ADExpr.massTransferTerm t "Liq" j, ADExpr.negVaporFlowTerm t "Vap" j)) ∧
    (j ∉ vap → j = "S_IC" →
      rule_material_balance (common_comps vap liq) liq fb t j =
        some (ADExpr.massTransferTerm t "Liq" j, ADExpr.negVaporFlowTerm t "Vap" "S_co2")) ∧
    (j ∉ vap → j ≠ "S_IC" →
      rule_material_balance (common_comps vap liq) liq fb t j =
        some (ADExpr.massTransferTerm t "Liq" j, ADExpr.smallConst (1e-8) fb)) := by
  refine ⟨fun hv => ?_, fun hv hS => ?_, fun hv hS => ?_⟩
  · have hc : j ∈ common_comps vap liq := (mem_common_comps vap liq j).mpr ⟨hv, hj⟩
    simp [rule_material_balance, hc]
  · subst hS
    have hc : "S_IC" ∉ common_comps vap liq := fun hm =>
      hv ((mem_common_comps vap liq "S_IC").mp hm).1
    simp [rule_material_balance, hc]
  · have hc : j ∉ common_comps vap liq := fun hm => hv ((mem_common_comps vap liq j).mp hm).1
    simp [rule_material_balance, hc, hS, hj]

theorem claim_C1_material_balance_forms_witness :
    rule_material_balance (common_comps ["S_ch4", "S_co2"] ["S_ch4", "S_IC", "X_I"])
        ["S_ch4", "S_IC", "X_I"] "flow_mole" 0 "S_ch4" =
      some (ADExpr.massTransferTerm 0 "Liq" "S_ch4", ADExpr.negVaporFlowTerm 0 "Vap" "S_ch4") ∧
    rule_material_balance (common_comps ["S_ch4", "S_co2"] ["S_ch4", "S_IC", "X_I"])
        ["S_ch4", "S_IC", "X_I"] "flow_mole" 0 "S_IC" =
      some (ADExpr.massTransferTerm 0 "Liq" "S_IC", ADExpr.negVaporFlowTerm 0 "Vap" "S_co2") ∧
    rule_material_balance (common_comps ["S_ch4", "S_co2"] ["S_ch4", "S_IC", "X_I"])
        ["S_ch4", "S_IC", "X_I"] "flow_mole" 0 "X_I" =
      some (ADExpr.massTransferTerm 0 "Liq" "X_I", ADExpr.smallConst (1e-8) "flow_mole") := by
  refine ⟨?_, ?_, ?_⟩
  · exact (claim_C1_material_balance_forms _ _ _ 0 "S_ch4" (by decide)).1 (by decide)
  · exact (claim_C1_material_balance_forms _ _ _ 0 "S_IC" (by decide)).2.1 (by decide) rfl
  · exact (claim_C1_material_balance_forms _ _ _ 0 "X_I" (by decide)).2.2 (by decide) (by decide)

/-! Section: theorems for the costing registry. -/

theorem component_cons_self (pn : String) (cs : List (String × ParameterBlock))
    (nm : String) (pb : ParameterBlock) :
    (CostingPackage.mk pn ((nm, pb) :: cs)).component nm = some pb := by
  simp [CostingPackage.component, List.find?]

theorem add_reuse (b : BuildRule) (nm : String) (pkg : CostingPackage) (fixed : Bool)
    (h : pkg.component nm = some { ruleFcn := some b, allVarsFixed := fixed }) :
    add_costing_parameter_block b nm pkg = (pkg, [RegEvent.callWrapped], RegOutcome.ok) := by
  unfold add_costing_parameter_block
  rw [h]
  simp

theorem iterate_reuse (b : BuildRule) (nm : String) (fixed : Bool) :
    ∀ (n : Nat) (pkg : CostingPackage),
      pkg.component nm = some { ruleFcn := some b, allVarsFixed := fixed } →
      iterate_add b nm n pkg = (pkg, List.replicate n ([RegEvent.callWrapped], RegOutcome.ok))
  | 0, pkg, _ => by simp [iterate_add]
  | Nat.succ n, pkg, h => by
      have hr := add_reuse b nm pkg fixed h
      have ih := iterate_reuse b nm fixed n pkg h
      simp [iterate_add, hr, ih, List.replicate_succ]

theorem add_first_call (b : BuildRule) (nm : String) (pkg : CostingPackage)
    (h : pkg.component nm = none) :
    add_costing_parameter_block b nm pkg =
      ({ pkg with components := (nm, { ruleFcn := some b, allVarsFixed := true }) :: pkg.components },
        [RegEvent.addComponent nm, RegEvent.fixAllVars nm, RegEvent.callWrapped],
        RegOutcome.ok) := by
  unfold add_costing_parameter_block
  rw [h]

/-- Claim C2: starting from a package where the name is unbound, N = n + 1
calls with the same build rule construct the block exactly once (on the
first call, which also fixes all its variables) and the remaining n calls
reuse it without reconstruction; and once the name is bound to a rule, a
call with a different rule returns the package unchanged and raises a
RuntimeError whose message names the block name and the function name and
module of the previously used builder. -/
theorem claim_C2_registry (b : BuildRule) (nm : String) (pkg : CostingPackage)
    (h : pkg.component nm = none) :
    (∀ n : Nat,
      iterate_add b nm (n + 1) pkg =
        ({ pkg with components :=
              (nm, { ruleFcn := some b, allVarsFixed := true }) :: pkg.components },
          ([RegEvent.addComponent nm, RegEvent.fixAllVars nm, RegEvent.callWrapped],
              RegOutcome.ok) ::
            List.replicate n ([RegEvent.callWrapped], RegOutcome.ok))) ∧
    (∀ b2 : BuildRule, b2 ≠ b →
      ∀ pkg2 : CostingPackage,
        pkg2.component nm = some { ruleFcn := some b, allVarsFixed := true } →
        add_costing_parameter_block b2 nm pkg2 =
          (pkg2, [], RegOutcome.runtimeError (conflictMsg pkg2 nm b)) ∧
        mentions (conflictMsg pkg2 nm b) nm ∧
        mentions (conflictMsg pkg2 nm b) b.fname ∧
        mentions (conflictMsg pkg2 nm b) b.fmodule) := by
  constructor
  · intro n
    have hfirst := add_first_call b nm pkg h
    have hcomp : ({ pkg with components :=
          (nm, { ruleFcn := some b, allVarsFixed := true }) :: pkg.components } :
            CostingPackage).component nm =
        some { ruleFcn := some b, allVarsFixed := true } :=
      component_cons_self pkg.pname pkg.components nm _
    have hrest := iterate_reuse b nm true n _ hcomp
    simp [iterate_add, hfirst, hrest]
  · intro b2 hb2 pkg2 h2
    refine ⟨?_, ?_, ?_, ?_⟩
    · unfold add_costing_parameter_block
      rw [h2]
      simp only []
      rw [if_neg (fun hh => hb2 hh.symm)]
    · exact ⟨"Attempting to add identically named costing parameter blocks with " ++
          "different build rules to the costing package " ++
          (pkg2.pname ++ ". Parameter block named "),
        " was previously built by function " ++
          (b.fname ++ (" from module " ++ b.fmodule)),
        by simp only [conflictMsg, String.append_assoc]⟩
    · exact ⟨"Attempting to add identically named costing parameter blocks with " ++
          "different build rules to the costing package " ++
          (pkg2.pname ++ (". Parameter block named " ++
            (nm ++ " was previously built by function "))),
        " from module " ++ b.fmodule,
        by simp only [conflictMsg, String.append_assoc]⟩
    · exact ⟨"Attempting to add identically named costing parameter blocks with " ++
          "different build rules to the costing package " ++
          (pkg2.pname ++ (". Parameter block named " ++
            (nm ++ (" was previously built by function " ++
              (b.fname ++ " from module "))))),
        "",
        by simp only [conflictMsg, String.append_assoc, String.append_empty]⟩

theorem claim_C2_registry_witness :
    (iterate_add ⟨1, "build_a", "mod_a"⟩ "electricity_cost" 2 ⟨"WaterTAPCosting", []⟩).snd =
      [([RegEvent.addComponent "electricity_cost", RegEvent.fixAllVars "electricity_cost",
          RegEvent.callWrapped], RegOutcome.ok),
        ([RegEvent.callWrapped], RegOutcome.ok)] ∧
    mentions
      (conflictMsg (iterate_add ⟨1, "build_a", "mod_a"⟩ "electricity_cost" 2
          ⟨"WaterTAPCosting", []⟩).fst "electricity_cost" ⟨1, "build_a", "mod_a"⟩)
      "build_a" := by
  have h := claim_C2_registry ⟨1, "build_a", "mod_a"⟩ "electricity_cost"
    ⟨"WaterTAPCosting", []⟩ (by decide)
  have h2 := (h.2 ⟨2, "build_b", "mod_b"⟩ (by decide)
    (iterate_add ⟨1, "build_a", "mod_a"⟩ "electricity_cost" 2 ⟨"WaterTAPCosting", []⟩).fst
    (by rw [h.1 1]; decide)).2.2.1
  refine ⟨?_, h2⟩
  rw [h.1 1]
  rfl

/-- Claim C10: in the function produced by register_costing_parameter_block,
the builder-identity check precedes invocation of the wrapped costing
function: on a RuntimeError the package is unchanged and the wrapped
function is never called, while on every non-error call the wrapped function
is called exactly once and last, after the block exists and, on the
construction path, after all its variables are fixed. -/
theorem claim_C10_check_precedes_call (b : BuildRule) (nm : String)
    (pkg : CostingPackage) :
    (∀ msg : String,
      (add_costing_parameter_block b nm pkg).snd.snd = RegOutcome.runtimeError msg →
        (add_costing_parameter_block b nm pkg).fst = pkg ∧
        RegEvent.callWrapped ∉ (add_costing_parameter_block b nm pkg).snd.fst) ∧
    ((add_costing_parameter_block b nm pkg).snd.snd = RegOutcome.ok →
      ((add_costing_parameter_block b nm pkg).snd.fst =
          [RegEvent.addComponent nm, RegEvent.fixAllVars nm, RegEvent.callWrapped] ∧
        (add_costing_parameter_block b nm pkg).fst.component nm =
          some { ruleFcn := some b, allVarsFixed := true }) ∨
      ((add_costing_parameter_block b nm pkg).snd.fst = [RegEvent.callWrapped] ∧
        (add_costing_parameter_block b nm pkg).fst = pkg)) := by
  rcases hcomp : pkg.component nm with - | ⟨rf, fixed⟩
  · have hfirst := add_first_call b nm pkg hcomp
    rw [hfirst]
    exact ⟨fun msg hmsg => by simp at hmsg,
      fun _ => Or.inl ⟨rfl, component_cons_self pkg.pname pkg.components nm _⟩⟩
  · rcases rf with - | other
    · have : add_costing_parameter_block b nm pkg =
          (pkg, [], RegOutcome.runtimeError misuseMsg) := by
        unfold add_costing_parameter_block
        rw [hcomp]
      rw [this]
      exact ⟨fun msg _ => ⟨rfl, by simp⟩, fun hok => by simp at hok⟩
    · by_cases he : other = b
      · subst he
        have := add_reuse other nm pkg fixed hcomp
        rw [this]
        exact ⟨fun msg hmsg => by simp at hmsg, fun _ => Or.inr ⟨rfl, rfl⟩⟩
      · have : add_costing_parameter_block b nm pkg =
            (pkg, [], RegOutcome.runtimeError (conflictMsg pkg nm other)) := by
          unfold add_costing_parameter_block
          rw [hcomp]
          simp only []
          rw [if_neg he]
        rw [this]
        exact ⟨fun msg _ => ⟨rfl, by simp⟩, fun hok => by simp at hok⟩

set_option maxRecDepth 8000 in
theorem claim_C10_check_precedes_call_witness :
    (add_costing_parameter_block ⟨2, "build_b", "mod_b"⟩ "electricity_cost"
        ⟨"WaterTAPCosting",
          [("electricity_cost", ⟨some ⟨1, "build_a", "mod_a"⟩, true⟩)]⟩).fst =
      ⟨"WaterTAPCosting",
        [("electricity_cost", ⟨some ⟨1, "build_a", "mod_a"⟩, true⟩)]⟩ ∧
    RegEvent.callWrapped ∉
      (add_costing_parameter_block ⟨2, "build_b", "mod_b"⟩ "electricity_cost"
        ⟨"WaterTAPCosting",
          [("electricity_cost", ⟨some ⟨1, "build_a", "mod_a"⟩, true⟩)]⟩).snd.fst :=
  (claim_C10_check_precedes_call ⟨2, "build_b", "mod_b"⟩ "electricity_cost"
      ⟨"WaterTAPCosting",
        [("electricity_cost", ⟨some ⟨1, "build_a", "mod_a"⟩, true⟩)]⟩).1
    (conflictMsg
      ⟨"WaterTAPCosting",
        [("electricity_cost", ⟨some ⟨1, "build_a", "mod_a"⟩, true⟩)]⟩
      "electricity_cost" ⟨1, "build_a", "mod_a"⟩)
    (by decide)

/-! Section: theorems for build validation. -/

/-- Claim C6: build raises a ConfigurationError naming the unit whenever a
structural invariant is violated (liquid phase list not exactly Liq, vapor
phase list not exactly Vap, no common component, or differing material flow
bases); in particular a liquid phase list of Liq and Gas yields an error
citing a single phase named Liq, and the no-common-component violation
yields an error citing a common component; and no numeric solve occurs
during build. -/
theorem claim_C6_build_validation (name : String) (cfg : ADConfig) (times : List ℚ) :
    ((cfg.liquid_phase_list ≠ ["Liq"] ∨ cfg.vapor_phase_list ≠ ["Vap"] ∨
        (¬ ∃ j ∈ cfg.liquid_component_list, j ∈ cfg.vapor_component_list) ∨
        cfg.vapor_flow_basis ≠ cfg.liquid_flow_basis) →
      ∃ rest, ADData.build name cfg times = Except.error (name ++ rest)) ∧
    (cfg.liquid_phase_list = ["Liq", "Gas"] → cfg.vapor_phase_list = ["Vap"] →
      ∃ msg, ADData.build name cfg times = Except.error msg ∧
        mentions msg "single phase named \x27Liq\x27") ∧
    (cfg.vapor_phase_list = ["Vap"] → cfg.liquid_phase_list = ["Liq"] →
      (¬ ∃ j ∈ cfg.liquid_component_list, j ∈ cfg.vapor_component_list) →
      ∃ msg, ADData.build name cfg times = Except.error msg ∧
        mentions msg "common component") ∧
    (∀ m, ADData.build name cfg times = Except.ok m →
      ADEffect.solver_solve ∉ m.effects) := by
  refine ⟨?_, ?_, ?_, ?_⟩
  · intro hviol
    by_cases hv : cfg.vapor_phase_list = ["Vap"]
    · by_cases hl : cfg.liquid_phase_list = ["Liq"]
      · by_cases hc : ∃ j ∈ cfg.liquid_component_list, j ∈ cfg.vapor_component_list
        · have hfb : cfg.vapor_flow_basis ≠ cfg.liquid_flow_basis := by
            rcases hviol with h | h | h | h
            exacts [absurd hl h, absurd hv h, absurd hc h, h]
          exact ⟨" vapor and liquid property packages must use the same material flow basis.",
            by simp [ADData.build, hv, hl, hc, hfb]⟩
        · exact ⟨" Anaerobic digestor model requires that the liquid and vapor phase property packages have at least one common component.",
            by simp [ADData.build, hv, hl, hc]⟩
      · exact ⟨" Anaerobic digestor model requires that the liquid phase property package have a single phase named \x27Liq\x27",
          by simp [ADData.build, hv, hl]⟩
    · exact ⟨" Anaerobic digestor model requires that the vapor phase property package have a single phase named \x27Vap\x27",
        by simp [ADData.build, hv]⟩
  · intro hLG hv
    have hl : cfg.liquid_phase_list ≠ ["Liq"] := by rw [hLG]; decide
    refine ⟨name ++ " Anaerobic digestor model requires that the liquid phase property package have a single phase named \x27Liq\x27",
      by simp [ADData.build, hv, hl], ?_⟩
    refine ⟨name ++ " Anaerobic digestor model requires that the liquid phase property package have a ",
      "", ?_⟩
    rw [String.append_assoc]
    exact congrArg (fun s => name ++ s) (by decide)
  · intro hv hl hc
    refine ⟨name ++ " Anaerobic digestor model requires that the liquid and vapor phase property packages have at least one common component.",
      by simp [ADData.build, hv, hl, hc], ?_⟩
    refine ⟨name ++ " Anaerobic digestor model requires that the liquid and vapor phase property packages have at least one ",
      ".", ?_⟩
    rw [String.append_assoc]
    exact congrArg (fun s => name ++ s) (by decide)
  · intro m hm
    unfold ADData.build at hm
    split at hm
    · exact absurd hm (by simp)
    · split at hm
      · exact absurd hm (by simp)
      · split at hm
        · exact absurd hm (by simp)
        · split at hm
          · exact absurd hm (by simp)
          · split at hm
            · exact absurd hm (by simp)
            · injection hm with hm2
              subst hm2
              cases hb : cfg.has_pressure_change <;>
                cases hmn : cfg.momentum_balance_is_none <;>
                  simp [hb, hmn] <;> decide

set_option maxRecDepth 8000 in
theorem claim_C6_build_validation_witness :
    ADData.build "fs.AD"
        ⟨["Vap"], ["Liq", "Gas"], ["S_ch4"], ["S_ch4"],
          MaterialFlowBasis.mass, MaterialFlowBasis.mass, false, false⟩ [] =
      Except.error "fs.AD Anaerobic digestor model requires that the liquid phase property package have a single phase named \x27Liq\x27" ∧
    mentions "fs.AD Anaerobic digestor model requires that the liquid phase property package have a single phase named \x27Liq\x27"
      "single phase named \x27Liq\x27" := by
  obtain ⟨msg, hmsg, hmen⟩ :=
    (claim_C6_build_validation "fs.AD"
      ⟨["Vap"], ["Liq", "Gas"], ["S_ch4"], ["S_ch4"],
        MaterialFlowBasis.mass, MaterialFlowBasis.mass, false, false⟩ []).2.1 rfl rfl
  have h2 : ADData.build "fs.AD"
      ⟨["Vap"], ["Liq", "Gas"], ["S_ch4"], ["S_ch4"],
        MaterialFlowBasis.mass, MaterialFlowBasis.mass, false, false⟩ [] =
      Except.error "fs.AD Anaerobic digestor model requires that the liquid phase property package have a single phase named \x27Liq\x27" := by
    rfl
  rw [h2] at hmsg
  injection hmsg with he
  exact ⟨h2, he ▸ hmen⟩

/-! Section: theorems for the scaling coordinator. -/

/-- Claim C7 counterexample: with the recorded concentration factor 7 for
S_ch4 and 3 for S_IC, the Sco2_conc transfer constraint is rescaled by 7,
the factor of the S_ch4 concentration, and not by the factor 3 of the
concentration of its own species. -/
theorem claim_C7_counterexample :
    ("Sco2_conc", (7 : ℚ)) ∈
      applied_scaling_factors ["S_h2", "S_ch4", "S_co2"] ["S_h2", "S_ch4", "S_IC"]
        (fun r =>
          if r = ScaleVarRef.conc_mass_comp_out "S_ch4" then some 7
          else if r = ScaleVarRef.conc_mass_comp_out "S_IC" then some 3
          else none) ∧
    get_scaling_factor
        (fun r =>
          if r = ScaleVarRef.conc_mass_comp_out "S_ch4" then some 7
          else if r = ScaleVarRef.conc_mass_comp_out "S_IC" then some 3
          else none)
        (ScaleVarRef.conc_mass_comp_out "S_IC") = 3 ∧
    ("Sco2_conc", (3 : ℚ)) ∉
      applied_scaling_factors ["S_h2", "S_ch4", "S_co2"] ["S_h2", "S_ch4", "S_IC"]
        (fun r =>
          if r = ScaleVarRef.conc_mass_comp_out "S_ch4" then some 7
          else if r = ScaleVarRef.conc_mass_comp_out "S_IC" then some 3
          else none) := by
  refine ⟨?_, ?_, ?_⟩ <;>
    simp [applied_scaling_factors, calculate_scaling_transforms, get_scaling_factor,
      common_comps] <;> norm_num

/-- Claim C7 amended: calculate_scaling_factors rescales Sh2_conc by the
recorded factor of the liquid outlet concentration of S_h2, Sch4_conc by
that of S_ch4, and Sco2_conc also by the concentration factor of S_ch4 (not
by that of its own species), each defaulting to 1 when unset. -/
theorem claim_C7_volatile_scaling (vap liq : List String)
    (sf : ScaleVarRef → Option ℚ) :
    ("Sh2_conc", get_scaling_factor sf (ScaleVarRef.conc_mass_comp_out "S_h2")) ∈
      applied_scaling_factors vap liq sf ∧
    ("Sch4_conc", get_scaling_factor sf (ScaleVarRef.conc_mass_comp_out "S_ch4")) ∈
      applied_scaling_factors vap liq sf ∧
    ("Sco2_conc", get_scaling_factor sf (ScaleVarRef.conc_mass_comp_out "S_ch4")) ∈
      applied_scaling_factors vap liq sf := by
  refine ⟨?_, ?_, ?_⟩ <;>
    simp [applied_scaling_factors, calculate_scaling_transforms]
